import Mathlib

/-!
Verification of the content script `src/frontend/content.js` of the
AI-Youtube-Summarize browser extension.

The script is shallowly embedded: every DOM / network / storage effect is
recorded as an explicit `Event`, the browser's WHATWG `URL` /
`URLSearchParams` platform behaviour used by `getVideoIdFromUrl` is modelled
for the scheme / query / fragment structure with ASCII percent-decoding, and
the single `fetch` call is modelled by a `FetchOutcome` oracle (network
failure, or a response carrying its status, body text and the result of
parsing the body as JSON).
-/

set_option autoImplicit false

/-! ### WHATWG URL model (platform behaviour behind `new URL(url)` and
`url.searchParams.get('v')`) -/

/-- Characters allowed in a URL scheme after the first (which must be a
letter): ASCII alphanumerics and `+`, `-`, `.`. -/
def isSchemeChar (c : Char) : Bool :=
  c.isAlphanum || c = '+' || c = '-' || c = '.'

/-- Split a character list at the first occurrence of `sep`; `none` when
`sep` does not occur. -/
def splitFirst (sep : Char) : List Char → Option (List Char × List Char)
  | [] => none
  | c :: cs =>
    if c = sep then some ([], cs)
    else
      match splitFirst sep cs with
      | some (pre, post) => some (c :: pre, post)
      | none => none

/-- `new URL(url)` succeeds exactly when the input has a scheme: a `:` whose
left part is a non-empty run of scheme characters starting with a letter.
(`new URL("abc")` throws a `TypeError`.) -/
def validUrl (cs : List Char) : Bool :=
  match splitFirst ':' cs with
  | some (scheme, _) =>
    match scheme with
    | [] => false
    | c :: rest => c.isAlpha && rest.all isSchemeChar
  | none => false

/-- Drop the fragment: everything from the first `#` on. -/
def dropFragment (cs : List Char) : List Char :=
  match splitFirst '#' cs with
  | some (pre, _) => pre
  | none => cs

/-- The query string of a URL: everything after the first `?` (fragment
excluded); empty when there is no `?`. -/
def queryOf (cs : List Char) : List Char :=
  match splitFirst '?' (dropFragment cs) with
  | some (_, q) => q
  | none => []

/-- Hexadecimal digit value. -/
def hexVal (c : Char) : Option Nat :=
  if '0' ≤ c ∧ c ≤ '9' then some (c.toNat - '0'.toNat)
  else if 'a' ≤ c ∧ c ≤ 'f' then some (c.toNat - 'a'.toNat + 10)
  else if 'A' ≤ c ∧ c ≤ 'F' then some (c.toNat - 'A'.toNat + 10)
  else none

/-- `application/x-www-form-urlencoded` decoding as done by
`URLSearchParams`: `+` becomes a space, `%hh` becomes the character with code
`hh` (ASCII model of the UTF-8 decoding), malformed escapes are kept
verbatim. -/
def percentDecode : List Char → List Char
  | [] => []
  | '+' :: rest => ' ' :: percentDecode rest
  | '%' :: h1 :: h2 :: rest =>
    (match hexVal h1, hexVal h2 with
     | some a, some b => Char.ofNat (16 * a + b) :: percentDecode rest
     | _, _ => '%' :: percentDecode (h1 :: h2 :: rest))
  | c :: rest => c :: percentDecode rest

/-- Split a query string on `&`. -/
def splitAmp : List Char → List (List Char)
  | [] => [[]]
  | c :: cs =>
    if c = '&' then [] :: splitAmp cs
    else
      match splitAmp cs with
      | [] => [[c]]
      | h :: t => (c :: h) :: t

/-- One `key=value` piece of a query string, both sides form-urldecoded; a
piece without `=` is a key with empty value. -/
def parsePair (cs : List Char) : String × String :=
  match splitFirst '=' cs with
  | some (k, v) => (String.mk (percentDecode k), String.mk (percentDecode v))
  | none => (String.mk (percentDecode cs), "")

/-- `searchParams.get(key)`: the decoded value of the first piece whose
decoded key equals `key`, `none` when absent; empty pieces are skipped. -/
def searchParamsGet (key : String) (query : List Char) : Option String :=
  ((((splitAmp query).filter (· ≠ [])).map parsePair).find?
    (fun p => p.1 == key)).map (·.2)

deriving instance DecidableEq for Except

/-- `getVideoIdFromUrl` from `content.js`: `new URL(url)` (which throws on an
input without a scheme, modelled by `Except.error`), then
`urlObj.searchParams.get('v')`. -/
def getVideoIdFromUrl (url : String) : Except String (Option String) :=
  if validUrl url.data then Except.ok (searchParamsGet "v" (queryOf url.data))
  else Except.error "Invalid URL"

/-! ### JSON values (`response.json()` results) and JavaScript truthiness -/

/-- JSON values, as returned by `response.json()`. -/
inductive Json where
  | null
  | bool (b : Bool)
  | num (n : Int)
  | str (s : String)
  | arr (elems : List Json)
  | obj (fields : List (String × Json))

/-- JavaScript truthiness of a JSON value: `null`, `false`, `0` and `""` are
falsy, objects and arrays are truthy. -/
def Json.truthy : Json → Bool
  | .null => false
  | .bool b => b
  | .num n => n != 0
  | .str s => s ≠ ""
  | .arr _ => true
  | .obj _ => true

/-- Property access `data.summary`: field lookup on an object (first match),
`none` (i.e. `undefined`) on every non-object value. -/
def Json.getField (j : Json) (key : String) : Option Json :=
  match j with
  | .obj fields => (fields.find? (fun p => p.1 == key)).map (·.2)
  | _ => none

/-- String coercion applied when a value is assigned to `textContent`
(`displayTranscript` sets the modal text this way). The array case is left
as `""` because the repository's payloads never put an array there. -/
def Json.toDisplay : Json → String
  | .str s => s
  | .null => "null"
  | .bool true => "true"
  | .bool false => "false"
  | .num n => toString n
  | .arr _ => ""
  | .obj _ => "[object Object]"

/-! ### Storage, fetch oracle, and the event trace -/

/-- The object the `chrome.storage.sync.get` / `browser.storage.sync.get`
callback receives: always a result object, whose `preferredLanguage` field
may be unset (`none`). -/
inductive StorageResult where
  | object (preferredLanguage : Option String)
deriving DecidableEq

/-- The callback's test `result !== 'undefined'`: a strict comparison of the
result object against the string literal `'undefined'`. An object is never
strictly equal to a string, so this is `true` for every result object. -/
def resultStrictNeqUndefinedLiteral : StorageResult → Bool
  | .object _ => true

/-- The value the preference promise resolves to: `'tr'` when the
`result !== 'undefined'` test passes (it always does), otherwise the stored
`result.preferredLanguage` (possibly `undefined`, i.e. `none`). -/
def resolvePreferredLanguage (result : StorageResult) : Option String :=
  if resultStrictNeqUndefinedLiteral result then some "tr"
  else match result with
       | .object p => p

/-- Template-literal coercion of a possibly-`undefined` string:
`undefined` interpolates as the text `"undefined"`. -/
def jsToString? : Option String → String
  | some s => s
  | none => "undefined"

/-- Outcome of the single `fetch` call: a network-level failure (the promise
rejects, caught by the `catch` block), or a response with its HTTP status,
its body read as text (`response.text()`), and the result of parsing the
body as JSON (`response.json()`; `none` when parsing throws). -/
inductive FetchOutcome where
  | networkError
  | response (status : Nat) (bodyText : String) (bodyJson : Option Json)

/-- Observable effects of the click handler, in program order. -/
inductive Event where
  | storageGet (keys : List String)
  | consoleLog (msg : String)
  | spinnerShow
  | spinnerHide
  | request (url : String) (method : String)
      (headers : List (String × String)) (mode : String)
  | alert (msg : String)
  | modal (text : String)
deriving DecidableEq

def Event.isRequest : Event → Bool
  | .request _ _ _ _ => true
  | _ => false

def Event.isStorageGet : Event → Bool
  | .storageGet _ => true
  | _ => false

/-! ### The click handler (`handleSummarizeButtonClick`) -/

def noVideoIdMsg : String := "No video ID found. Cannot get transcript."

def notFoundMsg : String := "No captions or transcript found for this video."

def serverErrorMsg : String := "Error fetching transcript from the server."

def unexpectedErrorMsg (errorText : String) : String :=
  "An unexpected error occurred: " ++ errorText

def noSummaryMsg : String := "No summary returned from the server."

def connectFailureMsg : String := "Failed to connect to the transcript service."

/-- The fetch URL: a template literal interpolating `videoId` and
`preferredLanguage` verbatim (no `encodeURIComponent` in the source). -/
def requestUrl (videoId preferredLanguage : String) : String :=
  "http://localhost:8000/transcript?video_id=" ++ videoId ++
    "&summary_language=" ++ preferredLanguage

def requestHeaders : List (String × String) :=
  [("Accept", "application/json"), ("Content-Type", "application/json")]

/-- `handleSummarizeButtonClick` from `content.js`, as a function of the page
address, the storage callback's result object and the fetch outcome, to the
trace of effects (or an uncaught exception, `Except.error`, when
`getVideoIdFromUrl` throws — that call sits before the `try` block). -/
def handleSummarizeButtonClick (href : String) (storageResult : StorageResult)
    (outcome : FetchOutcome) : Except String (List Event) :=
  match getVideoIdFromUrl href with
  | .error e => .error e
  | .ok none => .ok [.alert noVideoIdMsg]
  | .ok (some vid) =>
    if vid = "" then .ok [.alert noVideoIdMsg]
    else
      let callbackLog : List Event :=
        if resultStrictNeqUndefinedLiteral storageResult
        then [.consoleLog "Undo"] else []
      let preferredLanguage : String :=
        jsToString? (resolvePreferredLanguage storageResult)
      let reqEv : Event :=
        .request (requestUrl vid preferredLanguage) "GET" requestHeaders "cors"
      let tryEvents : List Event :=
        match outcome with
        | .networkError =>
          [.spinnerShow, reqEv, .consoleLog "Error fetching transcript:",
           .alert connectFailureMsg, .spinnerHide]
        | .response status bodyText bodyJson =>
          if 200 ≤ status ∧ status < 300 then
            match bodyJson with
            | none =>
              [.spinnerShow, reqEv, .consoleLog "Error fetching transcript:",
               .alert connectFailureMsg, .spinnerHide]
            | some data =>
              match data.getField "summary" with
              | some v =>
                if data.truthy && v.truthy then
                  [.spinnerShow, reqEv, .modal v.toDisplay, .spinnerHide]
                else
                  [.spinnerShow, reqEv, .alert noSummaryMsg, .spinnerHide]
              | none =>
                [.spinnerShow, reqEv, .alert noSummaryMsg, .spinnerHide]
          else
            let msg : String :=
              if status = 404 then notFoundMsg
              else if status = 500 then serverErrorMsg
              else unexpectedErrorMsg bodyText
            [.spinnerShow, reqEv, .alert msg, .spinnerHide]
      .ok (Event.storageGet ["preferredLanguage"] :: callbackLog ++ tryEvents)

/-! ### Loading spinner DOM (`showLoadingSpinner` / `hideLoadingSpinner`) -/

/-- The slice of the document the spinner functions touch: whether an element
with id `loading-spinner-overlay` is present. -/
structure Dom where
  spinnerPresent : Bool
deriving DecidableEq

/-- `showLoadingSpinner`: returns immediately when the overlay already
exists, otherwise creates and appends it. -/
def showLoadingSpinner (d : Dom) : Dom :=
  if d.spinnerPresent then d else { spinnerPresent := true }

/-- `hideLoadingSpinner`: removes the overlay when present. -/
def hideLoadingSpinner (d : Dom) : Dom :=
  if d.spinnerPresent then { spinnerPresent := false } else d

/-- Effect of one traced event on the spinner slice of the document. -/
def applyEvent (d : Dom) : Event → Dom
  | .spinnerShow => showLoadingSpinner d
  | .spinnerHide => hideLoadingSpinner d
  | _ => d

/-! ### Button injector (`addSummarizeButtonIfNeeded`) -/

/-- The slice of the document the injector touches: whether the subscribe
anchor (`#subscribe-button > ... > div`) and the fallback container
(`#top-level-buttons-computed`) are present, and how many `#mySummarizeButton`
elements exist (`document.querySelector('#mySummarizeButton')` is non-null
exactly when this count is positive). -/
structure PageDom where
  subscribeAnchorPresent : Bool
  fallbackContainerPresent : Bool
  summarizeButtonCount : Nat
deriving DecidableEq

/-- `addSummarizeButtonIfNeeded` from `content.js`: insert one button after
the subscribe anchor when it exists and no button is present; otherwise fall
back to appending one to the action-button container when that exists and no
button is present; otherwise do nothing. -/
def addSummarizeButtonIfNeeded (d : PageDom) : PageDom :=
  if d.subscribeAnchorPresent ∧ d.summarizeButtonCount = 0 then
    { d with summarizeButtonCount := d.summarizeButtonCount + 1 }
  else if ¬ d.subscribeAnchorPresent ∧ d.summarizeButtonCount = 0 then
    if d.fallbackContainerPresent ∧ d.summarizeButtonCount = 0 then
      { d with summarizeButtonCount := d.summarizeButtonCount + 1 }
    else d
  else d

/-- One step of the page's life: either a mutation-observer (or load-time)
invocation of the injector, or a host-page mutation that rebuilds the
anchor / container but never touches the injected button. -/
inductive PageStep where
  | inject
  | hostMutate (sub fb : Bool)
deriving DecidableEq

/-- Run a sequence of page steps. -/
def runPage (d : PageDom) : List PageStep → PageDom
  | [] => d
  | .inject :: rest => runPage (addSummarizeButtonIfNeeded d) rest
  | .hostMutate s f :: rest =>
    runPage { d with subscribeAnchorPresent := s,
                     fallbackContainerPresent := f } rest

/-! ### Spec-side notion of URL-encoding (for the refinement claim about the
request URL; the source itself interpolates the parameters verbatim) -/

/-- Upper-case hexadecimal digit character of `n < 16`. -/
def hexDigitChar (n : Nat) : Char :=
  if n < 10 then Char.ofNat (48 + n) else Char.ofNat (65 + n - 10)

/-- The characters `encodeURIComponent` leaves unescaped: ASCII
alphanumerics and `- _ . ! ~ * ( )` and the apostrophe (code 39). -/
def isUnreservedChar (c : Char) : Bool :=
  c.isAlphanum || c = '-' || c = '_' || c = '.' || c = '!' || c = '~' ||
    c = '*' || c = Char.ofNat 39 || c = '(' || c = ')'

/-- Percent-encoding of one character (ASCII model of
`encodeURIComponent`). -/
def specUrlEncodeChar (c : Char) : List Char :=
  if isUnreservedChar c then [c]
  else ['%', hexDigitChar (c.toNat / 16 % 16), hexDigitChar (c.toNat % 16)]

/-- URL-encoding of a whole parameter value, following the spec's words
("both parameters URL-encoded"). -/
def specUrlEncode (s : String) : String :=
  String.mk ((s.data.map specUrlEncodeChar).flatten)

/-- The request URL as the spec describes it: the fixed endpoint with both
query parameters URL-encoded. The source's `requestUrl` interpolates the raw
values instead. -/
def specRequestUrlEncoded (videoId preferredLanguage : String) : String :=
  "http://localhost:8000/transcript?video_id=" ++ specUrlEncode videoId ++
    "&summary_language=" ++ specUrlEncode preferredLanguage

/-! ### Parser lemmas -/

theorem splitFirst_eq_none {sep : Char} {cs : List Char}
    (h : ∀ c ∈ cs, c ≠ sep) : splitFirst sep cs = none := by
  induction cs with
  | nil => rfl
  | cons c cs ih =>
    simp only [splitFirst]
    rw [if_neg (h c (by simp))]
    rw [ih (fun x hx => h x (by simp [hx]))]

theorem splitFirst_append_cons {sep : Char} {A B : List Char}
    (h : ∀ c ∈ A, c ≠ sep) : splitFirst sep (A ++ sep :: B) = some (A, B) := by
  induction A with
  | nil => simp [splitFirst]
  | cons c A ih =>
    simp only [List.cons_append, splitFirst]
    rw [if_neg (h c (by simp))]
    simp only [List.append_eq]
    rw [ih (fun x hx => h x (by simp [hx]))]

theorem splitAmp_no_sep {cs : List Char} (h : ∀ c ∈ cs, c ≠ '&') :
    splitAmp cs = [cs] := by
  induction cs with
  | nil => rfl
  | cons c cs ih =>
    simp only [splitAmp]
    rw [if_neg (h c (by simp))]
    rw [ih (fun x hx => h x (by simp [hx]))]

theorem percentDecode_plain {cs : List Char}
    (h : ∀ c ∈ cs, c ≠ '+' ∧ c ≠ '%') : percentDecode cs = cs := by
  induction cs with
  | nil => rfl
  | cons c cs ih =>
    have hc := h c (by simp)
    have ih' := ih (fun x hx => h x (by simp [hx]))
    rcases cs with _ | ⟨c2, cs2⟩
    · simp [percentDecode, hc.1, hc.2]
    · rcases cs2 with _ | ⟨c3, cs3⟩
      · simp [percentDecode, hc.1, hc.2, ih']
      · simp [percentDecode, hc.1, hc.2, ih']

/-- Character set of plain identifier values (YouTube video ids use ASCII
alphanumerics, `-` and `_`). -/
def isPlainIdChar (c : Char) : Bool := c.isAlphanum || c = '-' || c = '_'

theorem plainIdChar_ne {c : Char} (h : isPlainIdChar c = true) :
    c ≠ ':' ∧ c ≠ '?' ∧ c ≠ '#' ∧ c ≠ '&' ∧ c ≠ '=' ∧ c ≠ '+' ∧ c ≠ '%' := by
  refine ⟨?_, ?_, ?_, ?_, ?_, ?_, ?_⟩ <;> intro he <;> subst he <;>
    revert h <;> decide

theorem searchParamsGet_v (id : String)
    (h : ∀ c ∈ id.data, isPlainIdChar c = true) :
    searchParamsGet "v" ('v' :: '=' :: id.data) = some id := by
  have hplain := fun c hc => plainIdChar_ne (h c hc)
  have hamp : splitAmp ('v' :: '=' :: id.data) = ['v' :: '=' :: id.data] := by
    apply splitAmp_no_sep
    intro c hc
    simp only [List.mem_cons] at hc
    rcases hc with rfl | rfl | hc
    · decide
    · decide
    · exact (hplain c hc).2.2.2.1
  have hsplit : splitFirst '=' ('v' :: '=' :: id.data) = some (['v'], id.data) := by
    simp [splitFirst]
  have hdec : percentDecode id.data = id.data :=
    percentDecode_plain (fun c hc => ⟨(hplain c hc).2.2.2.2.2.1,
      (hplain c hc).2.2.2.2.2.2⟩)
  have hpv : percentDecode ['v'] = ['v'] := by decide
  have hmk : String.mk id.data = id := rfl
  unfold searchParamsGet
  rw [hamp]
  simp only [List.filter, List.map]
  simp only [parsePair, hsplit, hpv, hdec, hmk]
  simp [List.find?]

theorem getVideoIdFromUrl_watch (id : String)
    (h : ∀ c ∈ id.data, isPlainIdChar c = true) :
    getVideoIdFromUrl ("https://site/watch?v=" ++ id) = Except.ok (some id) := by
  have hplain := fun c hc => plainIdChar_ne (h c hc)
  have hdata : ("https://site/watch?v=" ++ id).data
      = "https://site/watch?v=".data ++ id.data := String.data_append _ _
  have hsplitcolon : "https://site/watch?v=".data ++ id.data
      = "https".data ++ ':' :: ("//site/watch?v=".data ++ id.data) := by
    rw [show "https://site/watch?v=".data
        = "https".data ++ ':' :: "//site/watch?v=".data from by decide]
    simp
  have hvalid : validUrl ("https://site/watch?v=".data ++ id.data) = true := by
    unfold validUrl
    rw [hsplitcolon, splitFirst_append_cons (by decide)]
    rfl
  have hnohash : splitFirst '#' ("https://site/watch?v=".data ++ id.data)
      = none := by
    apply splitFirst_eq_none
    intro c hc
    rcases List.mem_append.mp hc with h1 | h2
    · exact (by decide : ∀ c ∈ "https://site/watch?v=".data, c ≠ '#') c h1
    · exact (hplain c h2).2.2.1
  have hquery : splitFirst '?' ("https://site/watch?v=".data ++ id.data)
      = some ("https://site/watch".data, 'v' :: '=' :: id.data) := by
    rw [show "https://site/watch?v=".data ++ id.data
        = "https://site/watch".data ++ '?' :: ('v' :: '=' :: id.data) from by
      rw [show "https://site/watch?v=".data
          = "https://site/watch".data ++ '?' :: ['v', '='] from by decide]
      simp]
    exact splitFirst_append_cons (by decide)
  have hq : queryOf ("https://site/watch?v=".data ++ id.data)
      = 'v' :: '=' :: id.data := by
    unfold queryOf dropFragment
    rw [hnohash]
    rw [hquery]
  unfold getVideoIdFromUrl
  rw [hdata, if_pos hvalid, hq, searchParamsGet_v id h]

/-- On the request-phase path (identifier present and truthy) the trace is:
storage read, callback log, spinner shown, the single request, a middle
section free of spinner / request / storage events, spinner hidden last. -/
theorem handle_trace_shape (href : String) (p : Option String)
    (o : FetchOutcome) (vid : String)
    (hvid : getVideoIdFromUrl href = Except.ok (some vid)) (hne : vid ≠ "") :
    ∃ mid : List Event,
      handleSummarizeButtonClick href (.object p) o =
        Except.ok ([Event.storageGet ["preferredLanguage"],
          Event.consoleLog "Undo", Event.spinnerShow,
          Event.request (requestUrl vid "tr") "GET" requestHeaders "cors"] ++
          mid ++ [Event.spinnerHide]) ∧
      ∀ e ∈ mid, e.isRequest = false ∧ e.isStorageGet = false ∧
        e ≠ Event.spinnerShow ∧ e ≠ Event.spinnerHide := by
  cases o with
  | networkError =>
    refine ⟨[Event.consoleLog "Error fetching transcript:",
      Event.alert connectFailureMsg], ?_, ?_⟩
    · unfold handleSummarizeButtonClick
      rw [hvid]
      simp [hne, resultStrictNeqUndefinedLiteral, resolvePreferredLanguage,
        jsToString?]
    · intro e he
      simp only [List.mem_cons, List.not_mem_nil, or_false] at he
      rcases he with rfl | rfl <;>
        simp [Event.isRequest, Event.isStorageGet]
  | response status bodyText bodyJson =>
    by_cases hok : 200 ≤ status ∧ status < 300
    · cases bodyJson with
      | none =>
        refine ⟨[Event.consoleLog "Error fetching transcript:",
          Event.alert connectFailureMsg], ?_, ?_⟩
        · unfold handleSummarizeButtonClick
          rw [hvid]
          simp [hne, hok, resultStrictNeqUndefinedLiteral,
            resolvePreferredLanguage, jsToString?]
        · intro e he
          simp only [List.mem_cons, List.not_mem_nil, or_false] at he
          rcases he with rfl | rfl <;>
            simp [Event.isRequest, Event.isStorageGet]
      | some data =>
        rcases hsum : data.getField "summary" with _ | v
        · refine ⟨[Event.alert noSummaryMsg], ?_, ?_⟩
          · unfold handleSummarizeButtonClick
            rw [hvid]
            simp [hne, hok, hsum, resultStrictNeqUndefinedLiteral,
              resolvePreferredLanguage, jsToString?]
          · intro e he
            simp only [List.mem_cons, List.not_mem_nil, or_false] at he
            subst he
            simp [Event.isRequest, Event.isStorageGet]
        · by_cases ht : data.truthy && v.truthy
          · refine ⟨[Event.modal v.toDisplay], ?_, ?_⟩
            · unfold handleSummarizeButtonClick
              rw [hvid]
              simp [hne, hok, hsum, ht, resultStrictNeqUndefinedLiteral,
                resolvePreferredLanguage, jsToString?]
            · intro e he
              simp only [List.mem_cons, List.not_mem_nil, or_false] at he
              subst he
              simp [Event.isRequest, Event.isStorageGet]
          · refine ⟨[Event.alert noSummaryMsg], ?_, ?_⟩
            · unfold handleSummarizeButtonClick
              rw [hvid]
              simp [hne, hok, hsum, ht, resultStrictNeqUndefinedLiteral,
                resolvePreferredLanguage, jsToString?]
            · intro e he
              simp only [List.mem_cons, List.not_mem_nil, or_false] at he
              subst he
              simp [Event.isRequest, Event.isStorageGet]
    · refine ⟨[Event.alert (if status = 404 then notFoundMsg
        else if status = 500 then serverErrorMsg
        else unexpectedErrorMsg bodyText)], ?_, ?_⟩
      · unfold handleSummarizeButtonClick
        rw [hvid]
        simp [hne, hok, resultStrictNeqUndefinedLiteral,
          resolvePreferredLanguage, jsToString?]
      · intro e he
        simp only [List.mem_cons, List.not_mem_nil, or_false] at he
        subst he
        simp [Event.isRequest, Event.isStorageGet]

/-! ### Claim theorems -/

/-- C8 counterexample: the extractor is not total on address strings — on the
address `"abc"`, which has no URL scheme, `new URL` throws a `TypeError`
(modelled as `Except.error`), contradicting "no failure mode (no thrown
exception) beyond returning absent". -/
theorem c8_extractor_counterexample :
    getVideoIdFromUrl "abc" = Except.error "Invalid URL" := by decide

/-- C8 (amended): the page-identifier extractor is pure and deterministic;
for every address that parses as a URL it returns exactly the value of the
`v` query parameter (absent when the parameter is missing), and on an
address that is not a valid URL it throws instead of returning absent. -/
theorem c8_extractor_amended :
    (∀ id : String, (∀ c ∈ id.data, isPlainIdChar c = true) →
      getVideoIdFromUrl ("https://site/watch?v=" ++ id) = Except.ok (some id)) ∧
    getVideoIdFromUrl "https://site/watch" = Except.ok none ∧
    ∀ url : String, validUrl url.data = false →
      getVideoIdFromUrl url = Except.error "Invalid URL" := by
  refine ⟨getVideoIdFromUrl_watch, by decide, ?_⟩
  intro url h
  unfold getVideoIdFromUrl
  rw [if_neg (by simp [h])]

/-- Witness for C8 (amended) at the concrete identifier `abc123`. -/
theorem c8_extractor_amended_witness :
    getVideoIdFromUrl ("https://site/watch?v=" ++ "abc123") =
      Except.ok (some "abc123") :=
  c8_extractor_amended.1 "abc123" (by decide)

/-- C9: for every result object delivered to the storage callback — key set
or unset — the preference promise resolves to the fixed fallback `"tr"`;
the stored value is never used. -/
theorem c9_preference_always_tr (result : StorageResult) :
    resolvePreferredLanguage result = some "tr" := by
  cases result
  rfl

/-- C2: when the extractor returns an absent identifier, the click handler
shows only the blocking message "No video ID found. Cannot get transcript."
and returns: its trace contains no network request and no storage read. -/
theorem c2_no_video_id (href : String) (r : StorageResult) (o : FetchOutcome)
    (h : getVideoIdFromUrl href = Except.ok none) :
    handleSummarizeButtonClick href r o = Except.ok [Event.alert noVideoIdMsg] ∧
    ∀ evs, handleSummarizeButtonClick href r o = Except.ok evs →
      ∀ e ∈ evs, e.isRequest = false ∧ e.isStorageGet = false := by
  have hmain : handleSummarizeButtonClick href r o
      = Except.ok [Event.alert noVideoIdMsg] := by
    unfold handleSummarizeButtonClick
    rw [h]
  refine ⟨hmain, ?_⟩
  intro evs hevs e he
  rw [hmain] at hevs
  cases hevs
  simp only [List.mem_cons, List.not_mem_nil, or_false] at he
  subst he
  exact ⟨rfl, rfl⟩

/-- Witness for C2 at the concrete address `https://site/watch` (no `v`
parameter). -/
theorem c2_no_video_id_witness :
    handleSummarizeButtonClick "https://site/watch" (StorageResult.object none)
      FetchOutcome.networkError = Except.ok [Event.alert noVideoIdMsg] :=
  (c2_no_video_id "https://site/watch" (StorageResult.object none)
    FetchOutcome.networkError (by decide)).1

/-- C1: for every 2xx response whose parsed JSON body has a non-empty
`summary` string, the handler opens the modal and the modal text is exactly
that string. -/
theorem c1_success_modal (href : String) (r : StorageResult) (status : Nat)
    (bodyText : String) (data : Json) (vid s : String)
    (hvid : getVideoIdFromUrl href = Except.ok (some vid)) (hne : vid ≠ "")
    (hok : 200 ≤ status ∧ status < 300)
    (hsum : data.getField "summary" = some (.str s)) (hs : s ≠ "") :
    handleSummarizeButtonClick href r (.response status bodyText (some data)) =
      Except.ok [Event.storageGet ["preferredLanguage"], Event.consoleLog "Undo",
        Event.spinnerShow,
        Event.request (requestUrl vid "tr") "GET" requestHeaders "cors",
        Event.modal s, Event.spinnerHide] := by
  obtain ⟨p⟩ := r
  have hdata : data.truthy = true := by
    cases data <;> simp_all [Json.getField, Json.truthy]
  have hst : (Json.str s).truthy = true := by simp [Json.truthy, hs]
  have htd : (Json.str s).toDisplay = s := rfl
  unfold handleSummarizeButtonClick
  rw [hvid]
  simp [hne, hok, hsum, hdata, hst, htd,
    resultStrictNeqUndefinedLiteral, resolvePreferredLanguage, jsToString?]

/-- Witness for C1: the spec scenario — address with `v=abc123`, stored
preference `en`, a 200 response whose body parses to
`summary = "Hello"` — produces the modal showing `Hello`. -/
theorem c1_success_modal_witness :
    handleSummarizeButtonClick "https://site/watch?v=abc123"
      (StorageResult.object (some "en"))
      (FetchOutcome.response 200 ""
        (some (Json.obj [("summary", Json.str "Hello")]))) =
      Except.ok [Event.storageGet ["preferredLanguage"], Event.consoleLog "Undo",
        Event.spinnerShow,
        Event.request (requestUrl "abc123" "tr") "GET" requestHeaders "cors",
        Event.modal "Hello", Event.spinnerHide] :=
  c1_success_modal "https://site/watch?v=abc123"
    (StorageResult.object (some "en")) 200 ""
    (Json.obj [("summary", Json.str "Hello")]) "abc123" "Hello"
    (by decide) (by decide) (by decide) rfl (by decide)

/-- Any non-2xx response produces the status-dependent alert and no modal. -/
theorem handle_non2xx (href : String) (p : Option String) (status : Nat)
    (bodyText : String) (bodyJson : Option Json) (vid : String)
    (hvid : getVideoIdFromUrl href = Except.ok (some vid)) (hne : vid ≠ "")
    (hnok : ¬ (200 ≤ status ∧ status < 300)) :
    handleSummarizeButtonClick href (.object p)
        (.response status bodyText bodyJson) =
      Except.ok [Event.storageGet ["preferredLanguage"], Event.consoleLog "Undo",
        Event.spinnerShow,
        Event.request (requestUrl vid "tr") "GET" requestHeaders "cors",
        Event.alert (if status = 404 then notFoundMsg
          else if status = 500 then serverErrorMsg
          else unexpectedErrorMsg bodyText), Event.spinnerHide] := by
  unfold handleSummarizeButtonClick
  rw [hvid]
  simp [hne, hnok, resultStrictNeqUndefinedLiteral, resolvePreferredLanguage,
    jsToString?]

/-- C3: a 404 response always produces the alert "No captions or transcript
found for this video." and never opens the modal. -/
theorem c3_status_404 (href : String) (r : StorageResult) (bodyText : String)
    (bodyJson : Option Json) (vid : String)
    (hvid : getVideoIdFromUrl href = Except.ok (some vid)) (hne : vid ≠ "") :
    handleSummarizeButtonClick href r (.response 404 bodyText bodyJson) =
      Except.ok [Event.storageGet ["preferredLanguage"], Event.consoleLog "Undo",
        Event.spinnerShow,
        Event.request (requestUrl vid "tr") "GET" requestHeaders "cors",
        Event.alert notFoundMsg, Event.spinnerHide] ∧
    ∀ evs, handleSummarizeButtonClick href r (.response 404 bodyText bodyJson)
        = Except.ok evs → ∀ t, Event.modal t ∉ evs := by
  obtain ⟨p⟩ := r
  have hmain := handle_non2xx href p 404 bodyText bodyJson vid hvid hne
    (by decide)
  rw [if_pos rfl] at hmain
  refine ⟨hmain, ?_⟩
  intro evs hevs t hmem
  rw [hmain] at hevs
  cases hevs
  simp at hmem

/-- Witness for C3: the spec scenario — address with `v=abc123`, a 404
response — yields the "no captions" alert. -/
theorem c3_status_404_witness :
    handleSummarizeButtonClick "https://site/watch?v=abc123"
      (StorageResult.object none) (.response 404 "not found" none) =
      Except.ok [Event.storageGet ["preferredLanguage"], Event.consoleLog "Undo",
        Event.spinnerShow,
        Event.request (requestUrl "abc123" "tr") "GET" requestHeaders "cors",
        Event.alert notFoundMsg, Event.spinnerHide] :=
  (c3_status_404 "https://site/watch?v=abc123" (StorageResult.object none)
    "not found" none "abc123" (by decide) (by decide)).1

/-- C4: a 500 response always produces the server-error alert; every other
non-2xx status that is neither 404 nor 500 produces the generic alert
containing the raw body text; neither path opens the modal. -/
theorem c4_500_and_generic (href : String) (r : StorageResult) (status : Nat)
    (bodyText : String) (bodyJson : Option Json) (vid : String)
    (hvid : getVideoIdFromUrl href = Except.ok (some vid)) (hne : vid ≠ "")
    (hnok : ¬ (200 ≤ status ∧ status < 300)) :
    (status = 500 →
      handleSummarizeButtonClick href r (.response status bodyText bodyJson) =
        Except.ok [Event.storageGet ["preferredLanguage"],
          Event.consoleLog "Undo", Event.spinnerShow,
          Event.request (requestUrl vid "tr") "GET" requestHeaders "cors",
          Event.alert serverErrorMsg, Event.spinnerHide]) ∧
    (status ≠ 404 → status ≠ 500 →
      handleSummarizeButtonClick href r (.response status bodyText bodyJson) =
        Except.ok [Event.storageGet ["preferredLanguage"],
          Event.consoleLog "Undo", Event.spinnerShow,
          Event.request (requestUrl vid "tr") "GET" requestHeaders "cors",
          Event.alert (unexpectedErrorMsg bodyText), Event.spinnerHide]) ∧
    ∀ evs, handleSummarizeButtonClick href r (.response status bodyText bodyJson)
        = Except.ok evs → ∀ t, Event.modal t ∉ evs := by
  obtain ⟨p⟩ := r
  have hmain := handle_non2xx href p status bodyText bodyJson vid hvid hne hnok
  refine ⟨?_, ?_, ?_⟩
  · intro h500
    subst h500
    rw [hmain]
    simp
  · intro h404 h500
    rw [hmain, if_neg h404, if_neg h500]
  · intro evs hevs t hmem
    rw [hmain] at hevs
    cases hevs
    simp at hmem

/-- Witness for C4: a 500 response on the concrete scenario yields the
server-error alert. -/
theorem c4_500_and_generic_witness :
    handleSummarizeButtonClick "https://site/watch?v=abc123"
      (StorageResult.object none) (.response 500 "boom" none) =
      Except.ok [Event.storageGet ["preferredLanguage"], Event.consoleLog "Undo",
        Event.spinnerShow,
        Event.request (requestUrl "abc123" "tr") "GET" requestHeaders "cors",
        Event.alert serverErrorMsg, Event.spinnerHide] :=
  (c4_500_and_generic "https://site/watch?v=abc123" (StorageResult.object none)
    500 "boom" none "abc123" (by decide) (by decide) (by decide)).1 rfl

/-- C10: a 2xx response whose parsed body has a `summary` field with a falsy
value (empty string, `null`, `0`, `false`) produces the alert "No summary
returned from the server." and never opens the modal: presence of the field
alone is not sufficient. -/
theorem c10_falsy_summary (href : String) (r : StorageResult) (status : Nat)
    (bodyText : String) (data v : Json) (vid : String)
    (hvid : getVideoIdFromUrl href = Except.ok (some vid)) (hne : vid ≠ "")
    (hok : 200 ≤ status ∧ status < 300)
    (hsum : data.getField "summary" = some v) (hv : v.truthy = false) :
    handleSummarizeButtonClick href r (.response status bodyText (some data)) =
      Except.ok [Event.storageGet ["preferredLanguage"], Event.consoleLog "Undo",
        Event.spinnerShow,
        Event.request (requestUrl vid "tr") "GET" requestHeaders "cors",
        Event.alert noSummaryMsg, Event.spinnerHide] ∧
    ∀ evs, handleSummarizeButtonClick href r
        (.response status bodyText (some data)) = Except.ok evs →
      ∀ t, Event.modal t ∉ evs := by
  obtain ⟨p⟩ := r
  have hmain : handleSummarizeButtonClick href (.object p)
      (.response status bodyText (some data)) =
      Except.ok [Event.storageGet ["preferredLanguage"], Event.consoleLog "Undo",
        Event.spinnerShow,
        Event.request (requestUrl vid "tr") "GET" requestHeaders "cors",
        Event.alert noSummaryMsg, Event.spinnerHide] := by
    unfold handleSummarizeButtonClick
    rw [hvid]
    simp [hne, hok, hsum, hv, resultStrictNeqUndefinedLiteral,
      resolvePreferredLanguage, jsToString?]
  refine ⟨hmain, ?_⟩
  intro evs hevs t hmem
  rw [hmain] at hevs
  cases hevs
  simp at hmem

/-- Witness for C10: a 200 response with `summary` present but equal to the
empty string yields the "no summary" alert. -/
theorem c10_falsy_summary_witness :
    handleSummarizeButtonClick "https://site/watch?v=abc123"
      (StorageResult.object none)
      (.response 200 "" (some (Json.obj [("summary", Json.str "")]))) =
      Except.ok [Event.storageGet ["preferredLanguage"], Event.consoleLog "Undo",
        Event.spinnerShow,
        Event.request (requestUrl "abc123" "tr") "GET" requestHeaders "cors",
        Event.alert noSummaryMsg, Event.spinnerHide] :=
  (c10_falsy_summary "https://site/watch?v=abc123" (StorageResult.object none)
    200 "" (Json.obj [("summary", Json.str "")]) (Json.str "") "abc123"
    (by decide) (by decide) (by decide) rfl (by decide)).1

/-- C5 counterexample: the handler does not URL-encode the parameters. On
the address whose `v` parameter decodes to `a b` (a space), the issued
request URL carries the raw space, which differs from the URL-encoded form
the claim requires. -/
theorem c5_request_counterexample :
    handleSummarizeButtonClick "https://site/watch?v=a%20b"
      (StorageResult.object (some "en")) FetchOutcome.networkError =
      Except.ok [Event.storageGet ["preferredLanguage"], Event.consoleLog "Undo",
        Event.spinnerShow,
        Event.request
          "http://localhost:8000/transcript?video_id=a b&summary_language=tr"
          "GET" requestHeaders "cors",
        Event.consoleLog "Error fetching transcript:",
        Event.alert connectFailureMsg, Event.spinnerHide] ∧
    specRequestUrlEncoded "a b" "tr" =
      "http://localhost:8000/transcript?video_id=a%20b&summary_language=tr" ∧
    "http://localhost:8000/transcript?video_id=a b&summary_language=tr" ≠
      specRequestUrlEncoded "a b" "tr" :=
  ⟨by decide, by decide, by decide⟩

/-- C5 (amended): on every execution reaching the request phase the handler
issues exactly one request: a GET to the fixed endpoint with `video_id` and
`summary_language` interpolated verbatim (not URL-encoded) into the query
string, headers `Accept`/`Content-Type` `application/json`, cors mode. -/
theorem c5_request_verbatim_amended (href : String) (r : StorageResult)
    (o : FetchOutcome) (vid : String)
    (hvid : getVideoIdFromUrl href = Except.ok (some vid)) (hne : vid ≠ "") :
    ∃ evs, handleSummarizeButtonClick href r o = Except.ok evs ∧
      evs.filter Event.isRequest =
        [Event.request (requestUrl vid "tr") "GET" requestHeaders "cors"] := by
  obtain ⟨p⟩ := r
  obtain ⟨mid, hmain, hmid⟩ := handle_trace_shape href p o vid hvid hne
  refine ⟨_, hmain, ?_⟩
  rw [List.filter_append, List.filter_append]
  have h1 : mid.filter Event.isRequest = [] := by
    rw [List.filter_eq_nil_iff]
    intro a ha
    simp [(hmid a ha).1]
  rw [h1]
  simp [List.filter, Event.isRequest]

/-- Witness for C5 (amended) on the concrete scenario. -/
theorem c5_request_verbatim_amended_witness :
    ∃ evs, handleSummarizeButtonClick "https://site/watch?v=abc123"
        (StorageResult.object none) FetchOutcome.networkError =
        Except.ok evs ∧
      evs.filter Event.isRequest =
        [Event.request (requestUrl "abc123" "tr") "GET" requestHeaders "cors"] :=
  c5_request_verbatim_amended "https://site/watch?v=abc123"
    (StorageResult.object none) FetchOutcome.networkError "abc123"
    (by decide) (by decide)

/-- C6: `showLoadingSpinner` is idempotent (a no-op when the overlay already
exists), and on every execution reaching the request phase the trace shows
the spinner strictly before the request and hides it as the guaranteed final
step, with no other spinner events in between — the indicator is visible
exactly during the request/response window. -/
theorem c6_spinner_lifecycle :
    (∀ d : Dom, d.spinnerPresent = true → showLoadingSpinner d = d) ∧
    (∀ (href : String) (r : StorageResult) (o : FetchOutcome) (vid : String),
      getVideoIdFromUrl href = Except.ok (some vid) → vid ≠ "" →
      ∃ mid : List Event,
        handleSummarizeButtonClick href r o =
          Except.ok ([Event.storageGet ["preferredLanguage"],
            Event.consoleLog "Undo", Event.spinnerShow] ++ mid ++
            [Event.spinnerHide]) ∧
        (∃ u, Event.request u "GET" requestHeaders "cors" ∈ mid) ∧
        ∀ e ∈ mid, e ≠ Event.spinnerShow ∧ e ≠ Event.spinnerHide) := by
  constructor
  · intro d h
    unfold showLoadingSpinner
    rw [if_pos h]
  · intro href r o vid hvid hne
    obtain ⟨p⟩ := r
    obtain ⟨mid, hmain, hmid⟩ := handle_trace_shape href p o vid hvid hne
    refine ⟨Event.request (requestUrl vid "tr") "GET" requestHeaders "cors"
        :: mid, ?_, ⟨requestUrl vid "tr", by simp⟩, ?_⟩
    · rw [hmain]
      simp
    · intro e he
      rcases List.mem_cons.mp he with rfl | he2
      · exact ⟨by simp, by simp⟩
      · exact ⟨(hmid e he2).2.2.1, (hmid e he2).2.2.2⟩

/-- Witness for C6: idempotence at a present overlay, and the trace shape on
the concrete scenario. -/
theorem c6_spinner_lifecycle_witness :
    showLoadingSpinner { spinnerPresent := true } = { spinnerPresent := true } ∧
    ∃ mid : List Event,
      handleSummarizeButtonClick "https://site/watch?v=abc123"
          (StorageResult.object none) FetchOutcome.networkError =
        Except.ok ([Event.storageGet ["preferredLanguage"],
          Event.consoleLog "Undo", Event.spinnerShow] ++ mid ++
          [Event.spinnerHide]) ∧
      (∃ u, Event.request u "GET" requestHeaders "cors" ∈ mid) ∧
      ∀ e ∈ mid, e ≠ Event.spinnerShow ∧ e ≠ Event.spinnerHide :=
  ⟨c6_spinner_lifecycle.1 { spinnerPresent := true } rfl,
   c6_spinner_lifecycle.2 "https://site/watch?v=abc123"
     (StorageResult.object none) FetchOutcome.networkError "abc123"
     (by decide) (by decide)⟩

theorem addSummarize_le_one (d : PageDom) (h : d.summarizeButtonCount ≤ 1) :
    (addSummarizeButtonIfNeeded d).summarizeButtonCount ≤ 1 := by
  unfold addSummarizeButtonIfNeeded
  split
  · rename_i hc
    simp [hc.2]
  · split
    · split
      · rename_i hc
        simp [hc.2]
      · exact h
    · exact h

theorem runPage_le_one (steps : List PageStep) :
    ∀ d : PageDom, d.summarizeButtonCount ≤ 1 →
      (runPage d steps).summarizeButtonCount ≤ 1 := by
  induction steps with
  | nil => intro d h; exact h
  | cons s rest ih =>
    intro d h
    cases s with
    | inject => exact ih _ (addSummarize_le_one d h)
    | hostMutate sub fb => exact ih _ h

/-- C7: starting from a document without the button, any interleaving of
injector invocations and host mutations leaves at most one
`#mySummarizeButton`; an invocation inserts only when none is present, and
is a no-op when neither the subscribe anchor nor the fallback container
exists. -/
theorem c7_injector_unique_button :
    (∀ (sub fb : Bool) (steps : List PageStep),
      (runPage ⟨sub, fb, 0⟩ steps).summarizeButtonCount ≤ 1) ∧
    (∀ d : PageDom, 1 ≤ d.summarizeButtonCount →
      addSummarizeButtonIfNeeded d = d) ∧
    (∀ d : PageDom, d.subscribeAnchorPresent = false →
      d.fallbackContainerPresent = false →
      addSummarizeButtonIfNeeded d = d) := by
  refine ⟨?_, ?_, ?_⟩
  · intro sub fb steps
    exact runPage_le_one steps _ (by simp)
  · intro d h
    unfold addSummarizeButtonIfNeeded
    rw [if_neg, if_neg]
    · rintro ⟨-, h0⟩
      omega
    · rintro ⟨-, h0⟩
      omega
  · intro d h1 h2
    unfold addSummarizeButtonIfNeeded
    split
    · rename_i hc
      rw [h1] at hc
      simp at hc
    · split
      · split
        · rename_i hc
          rw [h2] at hc
          simp at hc
        · rfl
      · rfl

/-- Witness for C7: the injector leaves a document that already has the
button unchanged, and does nothing when neither insertion target exists. -/
theorem c7_injector_unique_button_witness :
    addSummarizeButtonIfNeeded ⟨true, true, 1⟩ = ⟨true, true, 1⟩ ∧
    addSummarizeButtonIfNeeded ⟨false, false, 0⟩ = ⟨false, false, 0⟩ :=
  ⟨c7_injector_unique_button.2.1 ⟨true, true, 1⟩ (by decide),
   c7_injector_unique_button.2.2 ⟨false, false, 0⟩ rfl rfl⟩
